import Mathlib

/-!
Verification development for the raspberry-pi-room-monitor repository.

The Python sources (`monitor.py`, `current_data.py`) are embedded shallowly:
pure fragments become Lean functions over `ℚ` (sensor values) and `ℤ`
(wall-clock time, in seconds); Python exceptions become `Except String`;
the mutable per-metric alert dictionaries become an explicit
`MetricAlertState` threaded through the step function.
-/

namespace RoomMonitor

/-- Per-metric alert state: the entry of `last_outside_state` and
`last_alert_time` for one metric kind in `monitor.py`.  `lastAlertTime`
is a wall-clock time in seconds, `none` standing for Python `None`. -/
structure MetricAlertState where
  outside : Bool
  lastAlertTime : Option ℤ
  deriving Repr, DecidableEq

/-- `last_alert is None or now - last_alert >= timedelta(hours=1)`
from `should_alert` in `monitor.py` (1 hour = 3600 seconds). -/
def cooldownElapsed (now : ℤ) (lastAlert : Option ℤ) : Bool :=
  match lastAlert with
  | none => true
  | some t => decide (3600 ≤ now - t)

/-- `should_alert(kind, value, min_val, max_val)` from `monitor.py`
(lines 199-217): returns whether an alert fires, together with the
updated per-metric state (the Python version mutates the dictionaries
`last_outside_state` and `last_alert_time` in place). -/
def shouldAlert (value minVal maxVal : ℚ) (now : ℤ) (st : MetricAlertState) :
    Bool × MetricAlertState :=
  if value < minVal ∨ maxVal < value then
    if !st.outside then
      (false, { st with outside := true })
    else if st.outside && cooldownElapsed now st.lastAlertTime then
      (true, { st with lastAlertTime := some now })
    else
      (false, st)
  else
    (false, { st with outside := false })

/-- Run `should_alert` over a list of timestamped readings for a single
metric with fixed bounds, threading the state; returns the list of
fire/no-fire decisions, one per cycle. -/
def runAlerts (minVal maxVal : ℚ) : List (ℤ × ℚ) → MetricAlertState → List Bool
  | [], _ => []
  | (t, v) :: rest, st =>
    let r := shouldAlert v minVal maxVal t st
    r.1 :: runAlerts minVal maxVal rest r.2

/-- Calibration multiplier applied to the temperature reading in
`get_current_data` (`current_data.py`, `TEMPERATURE_ADJUSTMENT = 0.9`). -/
def TEMPERATURE_ADJUSTMENT : ℚ := 9 / 10

/-- Calibration multiplier applied to the humidity reading in
`get_current_data` (`current_data.py`, `HUMIDITY_ADJUSTMENT = 1.00`). -/
def HUMIDITY_ADJUSTMENT : ℚ := 1

/-- The retry loop of `get_current_data` (`current_data.py`, lines
69-97).  `sensor n` is the pair of `Option` values the DHT22 driver
reports on the n-th read attempt (`none` standing for Python `None`);
the result carries the outcome together with the number of read
attempts actually performed.  A read with both values present returns
the calibrated pair; any other read is retried; once `maxRetries`
attempts are exhausted the final `RuntimeError` is raised. -/
def acquireLoop (sensor : ℕ → Option ℚ × Option ℚ) (maxRetries attempt : ℕ) :
    Except String (ℚ × ℚ) × ℕ :=
  if h : attempt < maxRetries then
    match sensor attempt with
    | (some t, some hum) =>
      (.ok (t * TEMPERATURE_ADJUSTMENT, hum * HUMIDITY_ADJUSTMENT), attempt + 1)
    | _ => acquireLoop sensor maxRetries (attempt + 1)
  else
    (.error ("Failed to read valid data from DHT22 after " ++
      toString maxRetries ++ " attempts"), attempt)
  termination_by maxRetries - attempt
  decreasing_by omega

/-- `get_current_data(max_retries, ...)` from `current_data.py`,
abstracting the settings/pin resolution and the driver handle (the
sensor itself is the `sensor` argument). -/
def getCurrentData (sensor : ℕ → Option ℚ × Option ℚ) (maxRetries : ℕ) :
    Except String (ℚ × ℚ) × ℕ :=
  acquireLoop sensor maxRetries 0

/-- A JSON scalar as it can appear in `settings.json` for fields the
code feeds to `int(...)`. -/
inductive JsonVal where
  | int (n : ℤ)
  | str (s : String)
  deriving Repr, DecidableEq

/-- Accumulate decimal digits; fails on the first non-digit character. -/
def parseDigitsAux (acc : ℕ) : List Char → Option ℕ
  | [] => some acc
  | c :: cs =>
    if c.isDigit then parseDigitsAux (acc * 10 + (c.toNat - 48)) cs else none

/-- Parse an optionally-signed decimal numeral, as Python `int(str)`
accepts (whitespace and underscore tolerance are not modelled). -/
def pyIntOfString (s : String) : Option ℤ :=
  match s.data with
  | [] => none
  | c :: cs =>
    if c = '-' then
      match cs with
      | [] => none
      | _ => (parseDigitsAux 0 cs).map (fun n => -(n : ℤ))
    else
      (parseDigitsAux 0 (c :: cs)).map (fun n => (n : ℤ))

/-- Python `int(v)`: an integer passes through, a string is parsed and
raises `ValueError` when it is not a numeral. -/
def pyInt (v : JsonVal) : Except String ℤ :=
  match v with
  | .int n => .ok n
  | .str s =>
    match pyIntOfString s with
    | some n => .ok n
    | none => .error ("ValueError: invalid literal for int() with base 10: " ++ s)

/-- The settings snapshot read from `settings.json` each cycle.  Fields
the code reads with `settings.get(...)` are `Option`s (`none` = key
absent or JSON null). -/
structure Settings where
  min_temp : Option ℚ := none
  max_temp : Option ℚ := none
  min_hum : Option ℚ := none
  max_hum : Option ℚ := none
  email_user : Option String := none
  email_pass : Option String := none
  email_to : Option String := none
  smtp_host : Option String := none
  smtp_port : Option JsonVal := none
  deriving Repr, DecidableEq

/-- `send_email(subject, body, settings)` from `monitor.py` (lines
59-86).  `transportOk` says whether the SMTP login/send inside the `try`
block succeeds; a transport exception is caught and turned into
`False`.  Note that `int(settings.get("smtp_port", 465))` runs before
the credential check and outside the `try`, so a `ValueError` there
propagates to the caller (`.error`). The message text itself is not
modelled (no claim inspects it). -/
def sendEmail (subject body : String) (s : Settings) (transportOk : Bool) :
    Except String Bool :=
  let user := s.email_user.getD ""
  let password := s.email_pass.getD ""
  let recipient := s.email_to.getD ""
  match pyInt (s.smtp_port.getD (.int 465)) with
  | .error e => .error e
  | .ok _port =>
    if user = "" || password = "" || recipient = "" then
      .ok false
    else
      .ok transportOk

/-- Settings with a non-numeric `smtp_port` and absent credentials. -/
def badPortSettings : Settings := { smtp_port := some (.str "abc") }

/-- The header row `["timestamp", "temperature", "humidity"]` written by
`csv.writer` when `monitor.py` creates a fresh `data_log.csv`
(lines 152-156). -/
def csvHeaderLine : String := "timestamp,temperature,humidity\r\n"

/-- The initialization step of `main()` (`monitor.py`, lines 150-160):
the backing store is the raw file content (`none` = file absent).  If
the file does not exist it is created holding exactly the header line;
an existing file is left untouched. -/
def ensureInitialized (store : Option String) : Option String :=
  match store with
  | some content => some content
  | none => some csvHeaderLine

/-- `get_cpu_temp()` (`current_data.py` lines 110-116, duplicated in
`monitor.py` lines 120-126): `thermalFile` is the content of
`/sys/class/thermal/thermal_zone0/temp` in millidegrees, `none` when the
path is absent (`FileNotFoundError` is caught and `None` returned). -/
def getCpuTemp (thermalFile : Option ℤ) : Option ℚ :=
  match thermalFile with
  | some raw => some ((raw : ℚ) / 1000)
  | none => none

/-- Python subtraction `x - y` where `x` may be `None`: on `None` it
raises `TypeError`. -/
def pySubOpt (x : Option ℚ) (y : ℚ) : Except String ℚ :=
  match x with
  | some v => .ok (v - y)
  | none => .error "TypeError: unsupported operand type(s) for -: NoneType and int"

/-- The module-level computation run when the sensor module is imported
(`current_data.py` lines 119-124): `MIN_T = 18`, `MAX_T = 75`,
`current_temp = get_cpu_temp()`, then
`temp_percent = (current_temp - MIN_T) / (MAX_T - MIN_T) * 100` clamped
to [0, 100].  With `current_temp = None` the subtraction raises
`TypeError`, so the import itself fails. -/
def importSensorModule (thermalFile : Option ℤ) : Except String ℚ :=
  match pySubOpt (getCpuTemp thermalFile) 18 with
  | .error e => .error e
  | .ok d =>
    let p := d / ((75 : ℚ) - 18) * 100
    .ok (max 0 (min 100 p))

/-- `sum(xs) / len(xs)` as computed at hour rollover in `main()`
(`monitor.py` lines 237-238). -/
def pyAvg (l : List ℚ) : ℚ := l.sum / (l.length : ℚ)

/-- Round to the nearest integer, ties to even — the rounding Python's
fixed-point float formatting applies. -/
def roundHalfEven (q : ℚ) : ℤ :=
  let f := q.floor
  let frac := q - (f : ℚ)
  if frac < 1 / 2 then f
  else if 1 / 2 < frac then f + 1
  else if f % 2 = 0 then f else f + 1

/-- Render a nonnegative count of tenths as "units.tenth". -/
def fmtTenths (n : ℕ) : String :=
  toString (n / 10) ++ "." ++ toString (n % 10)

/-- Python `f"{q:.1f}"`: one decimal digit, round half to even. -/
def pyFormatDot1 (q : ℚ) : String :=
  let n := roundHalfEven (q * 10)
  if n < 0 then "-" ++ fmtTenths (-n).toNat else fmtTenths n.toNat

/-- Python `f"{q: .1f}"` — the format spec in `monitor.py` line 240 has
a space flag, which prefixes nonnegative values with one space. -/
def pyFormatSpaceDot1 (q : ℚ) : String :=
  if roundHalfEven (q * 10) < 0 then pyFormatDot1 q else " " ++ pyFormatDot1 q

/-- The mutable locals of `main()`'s loop in `monitor.py`: the hour
bucket (`hourly_temp`, `hourly_hum`), `last_hour` (as a second count,
kept hour-aligned), the two per-metric alert states, the Python local
`log_time` (`none` until its first assignment — reading it then raises
`NameError`), and the CSV file content as a list of rows. -/
structure LoopState where
  hourlyTemp : List ℚ
  hourlyHum : List ℚ
  lastHour : ℤ
  tempState : MetricAlertState
  humState : MetricAlertState
  logTime : Option String
  log : List (List String)
  deriving Repr, DecidableEq

/-- Outcomes of one cycle's external effects: the `load_settings()`
call, the `get_current_data()` call, whether an attempted SMTP send
succeeds, whether an attempted CSV append succeeds, and the cycle's
wall-clock time `datetime.now()` in seconds. -/
structure CycleEnv where
  settingsResult : Except String Settings
  sensorResult : Except String (ℚ × ℚ)
  transportOk : Bool
  csvOk : Bool
  now : ℤ

/-- `append_csv(row)` from `monitor.py` (lines 104-111): the row is
appended when the write succeeds; an exception is caught and only
logged, leaving the file as it was. -/
def appendCsv (csvOk : Bool) (log : List (List String)) (row : List String) :
    List (List String) :=
  if csvOk then log ++ [row] else log

/-- The per-metric alert dispatch in `main()` (lines 220-231): LOW mail
below the minimum, HIGH mail above the maximum.  The message bodies are
not modelled (no claim inspects them). -/
def dispatchAlert (low high : String) (v lo hi : ℚ) (settings : Settings)
    (transportOk : Bool) : Except String Bool :=
  if v < lo then sendEmail low "" settings transportOk
  else if hi < v then sendEmail high "" settings transportOk
  else .ok false

/-- `if should_alert(...): send_email(...)` — dispatch only when the
evaluator fired. -/
def maybeDispatch (fire : Bool) (low high : String) (v lo hi : ℚ)
    (settings : Settings) (tOk : Bool) : Except String Bool :=
  if fire then dispatchAlert low high v lo hi settings tOk else .ok false

/-- The reading-processing part of one cycle of `main()` (lines
179-231): a failed acquisition is caught (`temp = hum = None`) and the
valid-reading block skipped; a valid reading is appended to the hour
bucket, then each metric's `should_alert` runs and a firing alert is
dispatched.  `send_email`'s own uncaught exceptions (see `sendEmail`)
propagate out of the cycle, as in the source. -/
def readingStep (settings : Settings) (env : CycleEnv) (st : LoopState) :
    Except String LoopState :=
  let minT := settings.min_temp.getD 18
  let maxT := settings.max_temp.getD 26
  let minH := settings.min_hum.getD 50
  let maxH := settings.max_hum.getD 70
  match env.sensorResult with
  | .error _ => .ok st
  | .ok (temp, hum) =>
    let st1 : LoopState :=
      { st with hourlyTemp := st.hourlyTemp ++ [temp],
                hourlyHum := st.hourlyHum ++ [hum] }
    let ta := shouldAlert temp minT maxT env.now st1.tempState
    let st2 : LoopState := { st1 with tempState := ta.2 }
    match maybeDispatch ta.1 "Temperature LOW Alert" "Temperature HIGH Alert"
        temp minT maxT settings env.transportOk with
    | .error e => .error e
    | .ok _ =>
      let ha := shouldAlert hum minH maxH env.now st2.humState
      let st3 : LoopState := { st2 with humState := ha.2 }
      match maybeDispatch ha.1 "Humidity LOW Alert" "Humidity HIGH Alert"
          hum minH maxH settings env.transportOk with
      | .error e => .error e
      | .ok _ => .ok st3

/-- `timestamp.replace(minute=0, second=0, microsecond=0)` on a time in
seconds. -/
def hourFloor (t : ℤ) : ℤ := (t / 3600) * 3600

/-- Stands for `strftime("%Y-%m-%d %H:%M")` on an hour-aligned time; the
calendar rendering itself is not modelled (no claim inspects it), only
that each hour gets a label. -/
def hourTimestamp (t : ℤ) : String := toString t

/-- The row built at rollover: `[log_time, f"{avg_temp:.1f}",
f"{avg_hum: .1f}"]` (`monitor.py` line 240 — note the space flag on the
humidity format spec). -/
def rolloverRow (logTime : String) (temps hums : List ℚ) : List String :=
  [logTime, pyFormatDot1 (pyAvg temps), pyFormatSpaceDot1 (pyAvg hums)]

/-- The hour-rollover block of `main()` (lines 234-247).  When the hour
advanced and the bucket is non-empty, the averaged row is appended (via
`append_csv`) and `log_time` assigned; when the bucket is empty the
skip-message `print` reads `log_time`, raising `NameError` if it was
never assigned; in either surviving case the bucket is cleared and
`last_hour` advanced. -/
def rolloverStep (env : CycleEnv) (st : LoopState) : Except String LoopState :=
  if st.lastHour < hourFloor env.now then
    if !st.hourlyTemp.isEmpty && !st.hourlyHum.isEmpty then
      .ok { st with
              log := appendCsv env.csvOk st.log
                (rolloverRow (hourTimestamp (hourFloor env.now - 3600))
                  st.hourlyTemp st.hourlyHum),
              logTime := some (hourTimestamp (hourFloor env.now - 3600)),
              hourlyTemp := [], hourlyHum := [],
              lastHour := hourFloor env.now }
    else
      match st.logTime with
      | none => .error "NameError: name log_time is not defined"
      | some _ =>
        .ok { st with hourlyTemp := [], hourlyHum := [],
                      lastHour := hourFloor env.now }
  else
    .ok st

/-- One full iteration of the `while True` loop of `main()` (lines
170-247): `load_settings()` runs outside any `try`, so its failure
propagates; then the reading step, then the rollover step. -/
def runCycle (env : CycleEnv) (st : LoopState) : Except String LoopState :=
  match env.settingsResult with
  | .error e => .error e
  | .ok settings =>
    match readingStep settings env st with
    | .error e => .error e
    | .ok st1 => rolloverStep env st1

/-- The loop state as `main()` sets it up before the first cycle, with
the CSV file freshly created with its header. -/
def freshState : LoopState :=
  { hourlyTemp := [], hourlyHum := [], lastHour := 0,
    tempState := ⟨false, none⟩, humState := ⟨false, none⟩,
    logTime := none, log := [["timestamp", "temperature", "humidity"]] }

/-- A cycle at the first hour boundary in which every sensor read of the
past hour failed: the hour bucket is still empty. -/
def emptyHourEnv : CycleEnv :=
  { settingsResult := .ok {}, sensorResult := .error "sensor failure",
    transportOk := true, csvOk := true, now := 3600 }

/-- The loop state one cycle before the first rollover, the hour bucket
holding the three readings of the claim. -/
def preRolloverState : LoopState :=
  { hourlyTemp := [21, 22, 23], hourlyHum := [50, 52, 54], lastHour := 0,
    tempState := ⟨false, none⟩, humState := ⟨false, none⟩,
    logTime := none, log := [["timestamp", "temperature", "humidity"]] }

/-- C1: one evaluation step of the alert decision obeys the three-case
rule: a value within `[min, max]` moves the state to within-range and
never alerts; a breach from a within-range state arms without alerting;
a breach from an already-outside state alerts exactly when
`lastAlertTime` is unset or at least one hour (3600 s) old, an alert
setting `lastAlertTime := now` with the state staying outside, and no
alert leaving the state untouched. -/
theorem shouldAlert_three_case_rule (value minVal maxVal : ℚ) (now : ℤ)
    (st : MetricAlertState) :
    (minVal ≤ value ∧ value ≤ maxVal →
      shouldAlert value minVal maxVal now st =
        (false, ⟨false, st.lastAlertTime⟩)) ∧
    ((value < minVal ∨ maxVal < value) → st.outside = false →
      shouldAlert value minVal maxVal now st =
        (false, ⟨true, st.lastAlertTime⟩)) ∧
    ((value < minVal ∨ maxVal < value) → st.outside = true →
      ((shouldAlert value minVal maxVal now st).1 = true ↔
        (st.lastAlertTime = none ∨
          ∃ t0, st.lastAlertTime = some t0 ∧ 3600 ≤ now - t0)) ∧
      ((st.lastAlertTime = none ∨
          ∃ t0, st.lastAlertTime = some t0 ∧ 3600 ≤ now - t0) →
        shouldAlert value minVal maxVal now st =
          (true, ⟨true, some now⟩)) ∧
      (∀ t0, st.lastAlertTime = some t0 → now - t0 < 3600 →
        shouldAlert value minVal maxVal now st = (false, st))) := by
  obtain ⟨o, la⟩ := st
  refine ⟨?_, ?_, ?_⟩
  · rintro ⟨h1, h2⟩
    have hout : ¬ (value < minVal ∨ maxVal < value) := by
      push_neg
      exact ⟨h1, h2⟩
    simp [shouldAlert, hout]
  · intro hout ho
    subst ho
    simp [shouldAlert, hout]
  · intro hout ho
    subst ho
    refine ⟨?_, ?_, ?_⟩
    · cases la with
      | none => simp [shouldAlert, hout, cooldownElapsed]
      | some t =>
        by_cases hc : 3600 ≤ now - t
        · simp [shouldAlert, hout, cooldownElapsed, hc]
        · simp [shouldAlert, hout, cooldownElapsed, hc]
    · rintro (hla | ⟨t0, hla, ht0⟩)
      · subst hla
        simp [shouldAlert, hout, cooldownElapsed]
      · subst hla
        simp [shouldAlert, hout, cooldownElapsed, ht0]
    · intro t0 hla ht0
      subst hla
      have hc : ¬ 3600 ≤ now - t0 := by omega
      simp [shouldAlert, hout, cooldownElapsed, hc]

/-- Witness for C1: a breach from a within-range state arms without
alerting at concrete inputs. -/
theorem shouldAlert_three_case_rule_witness :
    shouldAlert 25 18 22 0 ⟨false, none⟩ = (false, ⟨true, none⟩) :=
  (shouldAlert_three_case_rule 25 18 22 0 ⟨false, none⟩).2.1
    (Or.inr (by norm_num)) rfl

/-- C2 counterexample: in the spec's cooldown scenario (breach at t = 0,
breach again at t = 60 s, breach again at t = 3600 s, starting within
range with no alert time) the code fires at cycle 2, because
`last_alert_time` is still `None` there, and stays silent at the later
cycle; the claimed pattern `[false, false, true]` does not occur. -/
theorem cooldown_scenario_counterexample :
    runAlerts 18 22 [(0, 25), (60, 25), (3600, 25)] ⟨false, none⟩ =
      [false, true, false] ∧
    runAlerts 18 22 [(0, 25), (60, 25), (3600, 25)] ⟨false, none⟩ ≠
      [false, false, true] := by
  constructor
  · rfl
  · intro h
    rw [show runAlerts 18 22 [(0, 25), (60, 25), (3600, 25)] ⟨false, none⟩ =
        [false, true, false] from rfl] at h
    simp at h

/-- C2 amended: with a value above `max` at cycles t = 0, t = 60 and
t = T, starting within range with no alert time: no alert at cycle 1;
the alert fires already at cycle 2 (an unset `lastAlertTime` passes the
cooldown test); at the later cycle an alert fires exactly when at least
one hour has elapsed since cycle 2's alert. -/
theorem cooldown_scenario_amended (minVal maxVal v : ℚ) (T : ℤ)
    (hv : maxVal < v) :
    runAlerts minVal maxVal [(0, v), (60, v), (T, v)] ⟨false, none⟩ =
      [false, true, decide (3600 ≤ T - 60)] := by
  have hout : v < minVal ∨ maxVal < v := Or.inr hv
  simp only [runAlerts, shouldAlert, if_pos hout, cooldownElapsed]
  by_cases hc : 3600 ≤ T - 60 <;> simp [hc]

/-- Witness for C2 amended: concrete run with bounds [18, 22], value 25
and the third cycle exactly one hour after the first. -/
theorem cooldown_scenario_amended_witness :
    runAlerts 18 22 [(0, 25), (60, 25), (3600, 25)] ⟨false, none⟩ =
      [false, true, decide ((3600 : ℤ) ≤ 3600 - 60)] :=
  cooldown_scenario_amended 18 22 25 3600 (by norm_num)

/-- C3 counterexample: breach at t = 0 (arms), breach at t = 60 (alert
fires, `lastAlertTime := 60`), back in range at t = 120, re-breach at
t = 180 (arms), re-breach at t = 240.  The claim says the cycle at
t = 240 alerts regardless of the earlier alert's recency; the code keeps
the old `lastAlertTime` and stays silent (240 - 60 < 3600). -/
theorem rebreach_counterexample :
    runAlerts 18 22 [(0, 25), (60, 25), (120, 20), (180, 25), (240, 25)]
      ⟨false, none⟩ = [false, true, false, false, false] ∧
    (runAlerts 18 22 [(0, 25), (60, 25), (120, 20), (180, 25), (240, 25)]
      ⟨false, none⟩).get? 4 ≠ some true := by
  constructor
  · rfl
  · intro h
    rw [show runAlerts 18 22 [(0, 25), (60, 25), (120, 20), (180, 25), (240, 25)]
        ⟨false, none⟩ = [false, true, false, false, false] from rfl] at h
    simp at h

/-- C3 amended: in the breach / alert / recovery / re-breach scenario the
first re-breach cycle arms without alerting, and the second consecutive
re-breach cycle fires exactly when at least one hour has elapsed since
the earlier episode's alert: crossing back within range clears only the
outside flag, not `lastAlertTime`. -/
theorem rebreach_amended (minVal maxVal vOut vIn : ℚ) (t0 t1 t2 t3 t4 : ℤ)
    (hOut : vOut < minVal ∨ maxVal < vOut)
    (hIn : minVal ≤ vIn ∧ vIn ≤ maxVal) :
    runAlerts minVal maxVal
      [(t0, vOut), (t1, vOut), (t2, vIn), (t3, vOut), (t4, vOut)]
      ⟨false, none⟩ =
      [false, true, false, false, decide (3600 ≤ t4 - t1)] := by
  have hin : ¬ (vIn < minVal ∨ maxVal < vIn) := by
    push_neg
    exact hIn
  simp only [runAlerts, shouldAlert, if_pos hOut, if_neg hin, cooldownElapsed]
  by_cases hc : 3600 ≤ t4 - t1 <;> simp [hc]

/-- Witness for C3 amended: concrete run where the earlier alert is only
three minutes old at the second re-breach cycle, so no alert fires. -/
theorem rebreach_amended_witness :
    runAlerts 18 22 [(0, 25), (60, 25), (120, 20), (180, 25), (240, 25)]
      ⟨false, none⟩ =
      [false, true, false, false, decide ((3600 : ℤ) ≤ 240 - 60)] :=
  rebreach_amended 18 22 25 20 0 60 120 180 240 (Or.inr (by norm_num))
    ⟨by norm_num, by norm_num⟩

theorem acquireLoop_allNull (sensor : ℕ → Option ℚ × Option ℚ)
    (h : ∀ n, (sensor n).1 = none ∨ (sensor n).2 = none)
    (maxRetries : ℕ) :
    ∀ attempt, attempt ≤ maxRetries →
      acquireLoop sensor maxRetries attempt =
        (.error ("Failed to read valid data from DHT22 after " ++
          toString maxRetries ++ " attempts"), maxRetries) := by
  intro attempt hle
  generalize hgen : maxRetries - attempt = k
  induction k generalizing attempt with
  | zero =>
    have heq : attempt = maxRetries := by omega
    subst heq
    rw [acquireLoop]
    simp
  | succ k ih =>
    have hlt : attempt < maxRetries := by omega
    rw [acquireLoop, dif_pos hlt]
    have hnext := ih (attempt + 1) (by omega) (by omega)
    rcases hs : sensor attempt with ⟨a, b⟩
    rcases h attempt with h1 | h1 <;> rw [hs] at h1 <;> simp at h1
    · subst h1
      simpa using hnext
    · subst h1
      cases a <;> simpa using hnext

/-- C7: with a sensor whose reads always lack the temperature or the
humidity value, `get_current_data` with `max_retries = 3` performs
exactly 3 read attempts, never a 4th, and then raises the
retries-exhausted `RuntimeError` instead of returning a reading. -/
theorem retry_exhaustion (sensor : ℕ → Option ℚ × Option ℚ)
    (h : ∀ n, (sensor n).1 = none ∨ (sensor n).2 = none) :
    getCurrentData sensor 3 =
      (.error "Failed to read valid data from DHT22 after 3 attempts", 3) := by
  have := acquireLoop_allNull sensor h 3 0 (by omega)
  simpa [getCurrentData] using this

/-- Witness for C7: the always-`None` sensor stub. -/
theorem retry_exhaustion_witness :
    getCurrentData (fun _ => (none, none)) 3 =
      (.error "Failed to read valid data from DHT22 after 3 attempts", 3) :=
  retry_exhaustion (fun _ => (none, none)) (fun _ => Or.inl rfl)

/-- C8 counterexample: with credentials absent but `smtp_port` set to a
non-numeric string, `send_email` raises `ValueError` from
`int(settings.get("smtp_port", 465))` before the credential check — it
neither returns `False` nor contains the exception. -/
theorem dispatch_raises_on_bad_port :
    sendEmail "s" "b" badPortSettings true =
      .error "ValueError: invalid literal for int() with base 10: abc" ∧
    sendEmail "s" "b" badPortSettings true ≠ .ok false := by
  constructor
  · rfl
  · intro h
    rw [show sendEmail "s" "b" badPortSettings true =
        .error "ValueError: invalid literal for int() with base 10: abc"
        from rfl] at h
    simp at h

/-- C8 amended: provided `int(settings.get("smtp_port", 465))` succeeds
(in particular whenever `smtp_port` is absent or an integer), the claim
holds: missing or empty user/password/recipient yields `.ok false` with
no send, otherwise the result is `.ok` of the transport outcome
(transport failure caught as `false`), and no exception reaches the
caller. -/
theorem dispatch_no_propagation_amended (subject body : String)
    (s : Settings) (transportOk : Bool)
    (hport : (pyInt (s.smtp_port.getD (.int 465))).isOk = true) :
    ((s.email_user.getD "" = "" ∨ s.email_pass.getD "" = "" ∨
        s.email_to.getD "" = "") →
      sendEmail subject body s transportOk = .ok false) ∧
    ((s.email_user.getD "" ≠ "" ∧ s.email_pass.getD "" ≠ "" ∧
        s.email_to.getD "" ≠ "") →
      sendEmail subject body s transportOk = .ok transportOk) ∧
    (∃ b, sendEmail subject body s transportOk = .ok b) := by
  rcases hp : pyInt (s.smtp_port.getD (.int 465)) with e | port
  · rw [hp] at hport
    simp [Except.isOk, Except.toBool] at hport
  · refine ⟨?_, ?_, ?_⟩
    · intro hmiss
      have : (s.email_user.getD "" = "" || s.email_pass.getD "" = "" ||
          s.email_to.getD "" = "") = true := by
        rcases hmiss with h | h | h <;> simp [h]
      simp only [sendEmail, hp]
      rw [if_pos (by simpa using this)]
    · rintro ⟨h1, h2, h3⟩
      simp only [sendEmail, hp]
      rw [if_neg (by simp [h1, h2, h3])]
    · simp only [sendEmail, hp]
      by_cases hc : (s.email_user.getD "" = "" ∨ s.email_pass.getD "" = "" ∨
          s.email_to.getD "" = "")
      · refine ⟨false, ?_⟩
        have : (s.email_user.getD "" = "" || s.email_pass.getD "" = "" ||
            s.email_to.getD "" = "") = true := by
          rcases hc with h | h | h <;> simp [h]
        rw [if_pos (by simpa using this)]
      · push_neg at hc
        refine ⟨transportOk, ?_⟩
        rw [if_neg (by simp [hc.1, hc.2.1, hc.2.2])]

/-- Witness for C8 amended: empty settings (port defaults to 465, all
credentials absent) make `send_email` a no-op returning `false`. -/
theorem dispatch_no_propagation_witness :
    sendEmail "subj" "body" {} true = .ok false :=
  (dispatch_no_propagation_amended "subj" "body" {} true rfl).1 (Or.inl rfl)

/-- C9: log initialization is idempotent — an absent store is created
with exactly the three-column header, an existing store is byte-for-byte
unchanged, and running initialization twice equals running it once. -/
theorem ensureInitialized_idempotent (store : Option String) :
    (store = none → ensureInitialized store = some csvHeaderLine) ∧
    (∀ content, store = some content →
      ensureInitialized store = some content) ∧
    ensureInitialized (ensureInitialized store) = ensureInitialized store := by
  refine ⟨?_, ?_, ?_⟩
  · intro h
    subst h
    rfl
  · intro content h
    subst h
    rfl
  · cases store <;> rfl

/-- Witness for C9: initializing an absent store writes the header. -/
theorem ensureInitialized_idempotent_witness :
    ensureInitialized none = some csvHeaderLine :=
  (ensureInitialized_idempotent none).1 rfl

/-- C10: on a host without the CPU thermal sysfs path, `get_cpu_temp`
returns `None` and the module-level percentage computation raises
`TypeError` at import time, so importing the sensor module (and with it
starting the monitor loop or the one-shot reader) fails before any
monitoring begins. -/
theorem import_crashes_without_thermal_path :
    getCpuTemp none = none ∧
    importSensorModule none =
      .error "TypeError: unsupported operand type(s) for -: NoneType and int" :=
  ⟨rfl, rfl⟩

theorem sendEmail_isOk (subject body : String) (s : Settings) (tOk : Bool)
    (hport : (pyInt (s.smtp_port.getD (.int 465))).isOk = true) :
    (sendEmail subject body s tOk).isOk = true := by
  rcases hp : pyInt (s.smtp_port.getD (.int 465)) with e | port
  · rw [hp] at hport
    simp [Except.isOk, Except.toBool] at hport
  · simp only [sendEmail, hp]
    by_cases hc : (s.email_user.getD "" = "" || s.email_pass.getD "" = "" ||
        s.email_to.getD "" = "") = true
    · rw [if_pos hc]
      rfl
    · rw [if_neg hc]
      rfl

theorem maybeDispatch_not_error (fire : Bool) (low high : String)
    (v lo hi : ℚ) (s : Settings) (tOk : Bool)
    (hport : (pyInt (s.smtp_port.getD (.int 465))).isOk = true) (e : String) :
    maybeDispatch fire low high v lo hi s tOk ≠ .error e := by
  intro heq
  have hok : (maybeDispatch fire low high v lo hi s tOk).isOk = true := by
    unfold maybeDispatch dispatchAlert
    split_ifs with h1 h2 h3
    · exact sendEmail_isOk low "" s tOk hport
    · exact sendEmail_isOk high "" s tOk hport
    · rfl
    · rfl
  rw [heq] at hok
  simp [Except.isOk, Except.toBool] at hok

theorem readingStep_ok (settings : Settings) (env : CycleEnv) (st : LoopState)
    (hport : (pyInt (settings.smtp_port.getD (.int 465))).isOk = true) :
    ∃ st1, readingStep settings env st = .ok st1 ∧
      st1.logTime = st.logTime ∧ st1.lastHour = st.lastHour ∧
      ((st.hourlyTemp ≠ [] ∧ st.hourlyHum ≠ []) ∨ env.sensorResult.isOk = true →
        st1.hourlyTemp ≠ [] ∧ st1.hourlyHum ≠ []) := by
  rcases hs : env.sensorResult with e | ⟨temp, hum⟩
  · refine ⟨st, ?_, rfl, rfl, ?_⟩
    · simp [readingStep, hs]
    · rintro (⟨hT, hH⟩ | hok)
      · exact ⟨hT, hH⟩
      · simp [Except.isOk, Except.toBool] at hok
  · simp only [readingStep, hs]
    split
    · rename_i e heq
      exact absurd heq (maybeDispatch_not_error _ _ _ _ _ _ _ _ hport _)
    · split
      · rename_i e heq
        exact absurd heq (maybeDispatch_not_error _ _ _ _ _ _ _ _ hport _)
      · refine ⟨_, rfl, by simp, by simp, fun _ => ⟨by simp, by simp⟩⟩

theorem rolloverStep_ok (env : CycleEnv) (st : LoopState)
    (h : st.logTime.isSome = true ∨ hourFloor env.now ≤ st.lastHour ∨
         (st.hourlyTemp ≠ [] ∧ st.hourlyHum ≠ [])) :
    (rolloverStep env st).isOk = true := by
  unfold rolloverStep
  by_cases h1 : st.lastHour < hourFloor env.now
  · rw [if_pos h1]
    by_cases h2 : (!st.hourlyTemp.isEmpty && !st.hourlyHum.isEmpty) = true
    · rw [if_pos h2]
      rfl
    · rw [if_neg h2]
      rcases h with hlt | hle | hne
      · rcases hst : st.logTime with _ | sTime
        · rw [hst] at hlt
          simp at hlt
        · rfl
      · exact absurd h1 (not_lt.mpr hle)
      · exfalso
        apply h2
        rcases hne with ⟨hT, hH⟩
        rcases ht : st.hourlyTemp with _ | ⟨a, as⟩
        · exact absurd ht hT
        rcases hh : st.hourlyHum with _ | ⟨b, bs⟩
        · exact absurd hh hH
        rfl
  · rw [if_neg h1]
    rfl

/-- C4 counterexample: a cycle whose `load_settings()` raises (e.g. a
malformed `settings.json`) escapes `runCycle` as an error — the call
sits outside any `try`, so this per-cycle error terminates the loop,
refuting the claim that every per-cycle error is contained. -/
theorem settings_failure_escapes_cycle :
    runCycle { settingsResult := .error "JSONDecodeError: Expecting value",
               sensorResult := .ok (20, 60), transportOk := true,
               csvOk := true, now := 0 } freshState =
      .error "JSONDecodeError: Expecting value" := rfl

/-- C4 amended: sensor acquisition, notification transport, and log
append failures are each contained within the cycle — provided the
settings read itself succeeds with an integral `smtp_port` and the cycle
is not a first empty-bucket rollover (an hour boundary reached with
`log_time` never yet assigned and the hour bucket still empty, i.e. no
reading accumulated earlier this hour and this cycle's read failed too
— that case crashes the loop, see C5) — whereas a settings read failure
propagates and terminates MonitorLoop.  The hypothesis `hroll` is
exactly the complement of that crash condition. -/
theorem cycle_error_containment_amended (env : CycleEnv) (st : LoopState)
    (s : Settings) (hs : env.settingsResult = .ok s)
    (hport : (pyInt (s.smtp_port.getD (.int 465))).isOk = true)
    (hroll : st.logTime.isSome = true ∨ hourFloor env.now ≤ st.lastHour ∨
             (st.hourlyTemp ≠ [] ∧ st.hourlyHum ≠ []) ∨
             env.sensorResult.isOk = true) :
    (runCycle env st).isOk = true := by
  obtain ⟨st1, hst1, hlog, hlast, hne⟩ := readingStep_ok s env st hport
  simp only [runCycle, hs, hst1]
  apply rolloverStep_ok
  rcases hroll with h | h | h | h
  · exact Or.inl (by rw [hlog]; exact h)
  · exact Or.inr (Or.inl (by rw [hlast]; exact h))
  · exact Or.inr (Or.inr (hne (Or.inl h)))
  · exact Or.inr (Or.inr (hne (Or.inr h)))

/-- Witness for C4 amended: a sensor-failure cycle at an hour rollover
whose bucket is non-empty and whose `log_time` was never assigned — with
the SMTP transport and the CSV append failing as well — still
completes. -/
theorem cycle_error_containment_witness :
    (runCycle { settingsResult := .ok {},
                sensorResult := .error "sensor failure",
                transportOk := false, csvOk := false, now := 3600 }
      preRolloverState).isOk = true :=
  cycle_error_containment_amended
    { settingsResult := .ok {}, sensorResult := .error "sensor failure",
      transportOk := false, csvOk := false, now := 3600 }
    preRolloverState {} rfl rfl
    (Or.inr (Or.inr (Or.inl ⟨by decide, by decide⟩)))

/-- C5: the claim is right about the intent (skip the record, advance
the bucket, continue) but the code crashes at the very first empty-hour
rollover: the skip-message `print` reads the local `log_time`, which has
never been assigned, raising `NameError` and terminating the loop
instead of continuing. -/
theorem empty_hour_rollover_crashes :
    runCycle emptyHourEnv freshState =
      .error "NameError: name log_time is not defined" := rfl

theorem ratFloor_eq_intFloor (q : ℚ) : q.floor = ⌊q⌋ := by
  rw [Rat.floor_def', Rat.floor_def]

theorem roundHalfEven_intCast (n : ℤ) : roundHalfEven (n : ℚ) = n := by
  unfold roundHalfEven
  rw [ratFloor_eq_intFloor, Int.floor_intCast]
  norm_num

theorem pyFormatDot1_intCast (n : ℤ) (q : ℚ) (h : q * 10 = (n : ℚ))
    (hn : 0 ≤ n) : pyFormatDot1 q = fmtTenths n.toNat := by
  unfold pyFormatDot1
  rw [h, roundHalfEven_intCast, if_neg (by omega)]

theorem pyFormatSpaceDot1_intCast (n : ℤ) (q : ℚ) (h : q * 10 = (n : ℚ))
    (hn : 0 ≤ n) : pyFormatSpaceDot1 q = " " ++ pyFormatDot1 q := by
  unfold pyFormatSpaceDot1
  rw [h, roundHalfEven_intCast, if_neg (by omega)]

theorem rolloverRow_claim_bucket (ts : String) :
    rolloverRow ts [21, 22, 23] [50, 52, 54] = [ts, "22.0", " 52.0"] := by
  have hT : pyAvg [(21 : ℚ), 22, 23] = 22 := by
    norm_num [pyAvg, List.sum_cons, List.sum_nil]
  have hH : pyAvg [(50 : ℚ), 52, 54] = 52 := by
    norm_num [pyAvg, List.sum_cons, List.sum_nil]
  unfold rolloverRow
  rw [pyFormatDot1_intCast 220 _ (by rw [hT]; norm_num) (by norm_num)]
  rw [pyFormatSpaceDot1_intCast 520 _ (by rw [hH]; norm_num) (by norm_num)]
  rw [pyFormatDot1_intCast 520 _ (by rw [hH]; norm_num) (by norm_num)]
  have h1 : fmtTenths (220 : ℤ).toNat = "22.0" := by decide
  have h2 : fmtTenths (520 : ℤ).toNat = "52.0" := by decide
  rw [h1, h2]
  rfl

/-- C6 counterexample: for the bucket {21.0, 22.0, 23.0} / {50.0, 52.0,
54.0} the humidity field of the appended row is " 52.0" — the format
spec `f"{avg_hum: .1f}"` carries a space flag — not "52.0" as claimed. -/
theorem hourly_row_format_counterexample :
    (rolloverRow "2025-10-12 09:00" [21, 22, 23] [50, 52, 54]).get? 2 =
      some " 52.0" ∧ (" 52.0" : String) ≠ "52.0" := by
  rw [rolloverRow_claim_bucket]
  exact ⟨rfl, by decide⟩

/-- C6 amended: the rollover averages are exactly 22.0 and 52.0, and the
row appended to the log carries the temperature as "22.0" but the
humidity as " 52.0" (leading space from the space flag in the format
spec of `monitor.py` line 240). -/
theorem hourly_aggregation_amended :
    pyAvg [(21 : ℚ), 22, 23] = 22 ∧ pyAvg [(50 : ℚ), 52, 54] = 52 ∧
    runCycle emptyHourEnv preRolloverState =
      .ok { hourlyTemp := [], hourlyHum := [], lastHour := 3600,
            tempState := ⟨false, none⟩, humState := ⟨false, none⟩,
            logTime := some (hourTimestamp 0),
            log := [["timestamp", "temperature", "humidity"],
                    [hourTimestamp 0, "22.0", " 52.0"]] } := by
  refine ⟨by norm_num [pyAvg, List.sum_cons, List.sum_nil],
          by norm_num [pyAvg, List.sum_cons, List.sum_nil], ?_⟩
  have hstep : runCycle emptyHourEnv preRolloverState =
      .ok { hourlyTemp := [], hourlyHum := [], lastHour := 3600,
            tempState := ⟨false, none⟩, humState := ⟨false, none⟩,
            logTime := some (hourTimestamp 0),
            log := [["timestamp", "temperature", "humidity"],
                    rolloverRow (hourTimestamp 0) [21, 22, 23]
                      [50, 52, 54]] } := rfl
  rw [hstep, rolloverRow_claim_bucket]

end RoomMonitor
